import Mathlib

/-!
Shallow embedding of the fixed-size-record accessors from `mmap_reader.go`
(package `mmaps-in-go`): the syscall-based positional reader/writer
(`ReaderAtReader` / `WriterAtWriter`) and the memory-mapped reader/writer
(`MmapReader` / `MmapWriter`), together with the mapped writer's
page-residency helpers (`EvictPages` / `WarmPages`) and the `Close`
teardown of the mapped accessors.

File and mapping contents are modelled as `List Nat` (one entry per byte).
Indices are `Int`, matching Go's signed `int` argument. Fallible
operations return `Except Err _` or a `(state, Option Err)` pair when the
operation can mutate the underlying bytes.
-/

/-- Bytes per record (Go constant `RecordSize`). -/
def RecordSize : Nat := 100

/-- Number of records in the data file (Go constant `RecordCount`). -/
def RecordCount : Nat := 1000000

/-- Error kinds surfaced by the accessors, one per distinct `fmt.Errorf`
site of the source. -/
inductive Err where
  | indexOutOfRange (index : Int) : Err
  | bufferTooSmall (need got : Nat) : Err
  | sizeMismatch (expected got : Nat) : Err
  | shortRead (expected got : Nat) : Err
  | shortWrite (expected got : Nat) : Err
  | boundsExceeded (index : Int) : Err
  | readFailed : Err
  | advisoryFailed : Err
  deriving Repr, DecidableEq

/-- Outcome classification of an underlying `ReadAt` call: a clean
end-of-stream signal (`io.EOF`) or any other failure. -/
inductive ReadErr where
  | eof : ReadErr
  | otherFailure : ReadErr
  deriving Repr, DecidableEq

/-- Result of one positional `ReadAt` call: the bytes transferred (its
length is Go's `n`) and the error value, if any. -/
structure ReadAtOutcome where
  bytes : List Nat
  err : Option ReadErr
  deriving Repr, DecidableEq

/-- Body of `ReaderAtReader.ReadRecord`, parameterised by the behaviour of
the underlying `file.ReadAt` call (`readAt offset` is the outcome of
reading `RecordSize` bytes at `offset`). Mirrors `mmap_reader.go` lines
41-60: index check, buffer-length check, positional read, tolerance of
`io.EOF` on a full read, short-read check. -/
def readRecordWith (index : Int) (buf : List Nat) (readAt : Nat → ReadAtOutcome) :
    Except Err (List Nat) :=
  if index < 0 ∨ index ≥ (RecordCount : Int) then
    .error (.indexOutOfRange index)
  else if buf.length < RecordSize then
    .error (.bufferTooSmall RecordSize buf.length)
  else if (readAt (index.toNat * RecordSize)).err = some .otherFailure then
    .error .readFailed
  else if (readAt (index.toNat * RecordSize)).bytes.length ≠ RecordSize then
    .error (.shortRead RecordSize (readAt (index.toNat * RecordSize)).bytes.length)
  else
    .ok (readAt (index.toNat * RecordSize)).bytes

/-- Model of `os.File.ReadAt` on a regular file of content `file`: transfers
`min count (file.length - offset)` bytes starting at `offset` and reports
`io.EOF` exactly when fewer than `count` bytes were available. -/
def fileReadAt (file : List Nat) (offset count : Nat) : ReadAtOutcome :=
  { bytes := (file.drop offset).take count,
    err := if ((file.drop offset).take count).length < count then some .eof else none }

/-- The positional read `ReaderAtReader.ReadRecord` against a regular file of content `file`. -/
def ReaderAtReader.ReadRecord (file : List Nat) (index : Int) (buf : List Nat) :
    Except Err (List Nat) :=
  readRecordWith index buf (fun offset => fileReadAt file offset RecordSize)

/-- Mapped read `MmapReader.ReadRecord` (`mmap_reader.go` lines 135-146): index check,
mapping-bounds check, then a borrowed sub-slice of the mapping. The `buf`
argument exists only for interface symmetry and is never consulted. -/
def MmapReader.ReadRecord (data : List Nat) (index : Int) (buf : List Nat) :
    Except Err (List Nat) :=
  if index < 0 ∨ index ≥ (RecordCount : Int) then
    .error (.indexOutOfRange index)
  else if index.toNat * RecordSize + RecordSize > data.length then
    .error (.boundsExceeded index)
  else
    .ok ((data.drop (index.toNat * RecordSize)).take RecordSize)

/-- Effect of `os.File.WriteAt` on a regular file: bytes `data` land at
`offset`, zero-filling any gap past the old end of file. -/
def writeBytes (file : List Nat) (offset : Nat) (data : List Nat) : List Nat :=
  file.take offset ++ List.replicate (offset - file.length) 0 ++ data ++
    file.drop (offset + data.length)

/-- Positional write `WriterAtWriter.WriteRecord` (`mmap_reader.go` lines 81-100): index
check, exact-size check, positional write. Returns the file content after
the call together with the error, if any; on a regular file `WriteAt`
transfers all of `data`, so the short-write branch of the source is
unreachable here. -/
def WriterAtWriter.WriteRecord (file : List Nat) (index : Int) (data : List Nat) :
    List Nat × Option Err :=
  if index < 0 ∨ index ≥ (RecordCount : Int) then
    (file, some (.indexOutOfRange index))
  else if data.length ≠ RecordSize then
    (file, some (.sizeMismatch RecordSize data.length))
  else if data.length ≠ RecordSize then
    (writeBytes file (index.toNat * RecordSize) data,
      some (.shortWrite RecordSize data.length))
  else
    (writeBytes file (index.toNat * RecordSize) data, none)

/-- Mapped write `MmapWriter.WriteRecord` (`mmap_reader.go` lines 191-207): index
check, exact-size check, mapping-bounds check, then `copy` into the
mapped region. Returns the mapping content after the call together with
the error, if any. -/
def MmapWriter.WriteRecord (mapping : List Nat) (index : Int) (data : List Nat) :
    List Nat × Option Err :=
  if index < 0 ∨ index ≥ (RecordCount : Int) then
    (mapping, some (.indexOutOfRange index))
  else if data.length ≠ RecordSize then
    (mapping, some (.sizeMismatch RecordSize data.length))
  else if index.toNat * RecordSize + RecordSize > mapping.length then
    (mapping, some (.boundsExceeded index))
  else
    (mapping.take (index.toNat * RecordSize) ++ data ++
      mapping.drop (index.toNat * RecordSize + RecordSize), none)

/-- The two teardown steps a mapped accessor performs. -/
inductive CloseAction where
  | munmap : CloseAction
  | closeFile : CloseAction
  deriving Repr, DecidableEq

/-- Teardown `MmapReader.Close` (`mmap_reader.go` lines 148-160): munmap when a
mapping is present, then close the file when a handle is present; the
munmap error, when present, wins over the close error. Returns the
sequence of teardown actions performed and the surfaced error.
`unmapErr` / `closeErr` are the outcomes the two underlying calls would
produce. -/
def MmapReader.Close (dataPresent filePresent : Bool)
    (unmapErr closeErr : Option Err) : List CloseAction × Option Err :=
  ((if dataPresent then [CloseAction.munmap] else []) ++
      (if filePresent then [CloseAction.closeFile] else []),
    match (if dataPresent then unmapErr else none) with
    | some e => some e
    | none => if filePresent then closeErr else none)

/-- Teardown `MmapWriter.Close` (`mmap_reader.go` lines 209-221): identical
structure to `MmapReader.Close`. -/
def MmapWriter.Close (dataPresent filePresent : Bool)
    (unmapErr closeErr : Option Err) : List CloseAction × Option Err :=
  ((if dataPresent then [CloseAction.munmap] else []) ++
      (if filePresent then [CloseAction.closeFile] else []),
    match (if dataPresent then unmapErr else none) with
    | some e => some e
    | none => if filePresent then closeErr else none)

/-- Advisory `MmapWriter.EvictPages` (`mmap_reader.go` lines 223-228): a no-op when
no mapping exists, otherwise a purely advisory `madvise(MADV_DONTNEED)`
whose only observable product is its error value; the mapping content is
untouched. `madviseErr` is the outcome the advisory call would produce. -/
def MmapWriter.EvictPages (mapping : Option (List Nat)) (madviseErr : Option Err) :
    Option (List Nat) × Option Err :=
  match mapping with
  | none => (none, none)
  | some d => (some d, madviseErr)

/-- The loop of `WarmPages`: offsets `i, i+4096, ...` strictly below
`len`, in the order they are touched. -/
def warmLoop (len i : Nat) : List Nat :=
  if i < len then i :: warmLoop len (i + 4096)
  else []
termination_by len - i
decreasing_by omega

/-- Warm pass `MmapWriter.WarmPages` (`mmap_reader.go` lines 230-238): reads one
byte per 4096-byte page across the mapping, returns nothing. Modelled as
the mapping content after the call (unchanged) paired with the list of
byte offsets the loop reads. -/
def MmapWriter.WarmPages (mapping : Option (List Nat)) :
    Option (List Nat) × List Nat :=
  match mapping with
  | none => (none, [])
  | some d => (some d, warmLoop d.length 0)

/-- An index inside `[0, RecordCount)` fails the out-of-range test shared
by all four record operations. -/
theorem inRange_not_out (index : Int) (h0 : 0 ≤ index)
    (h1 : index < (RecordCount : Int)) :
    ¬(index < 0 ∨ index ≥ (RecordCount : Int)) := by omega

/-- A record slice taken inside the byte range of `l` has full length. -/
theorem slice_length (l : List Nat) (o : Nat) (h : o + RecordSize ≤ l.length) :
    ((l.drop o).take RecordSize).length = RecordSize := by
  simp only [List.length_take, List.length_drop]
  omega

/-- An in-range record lies inside a file obeying the size invariant. -/
theorem record_fits (index : Int) (len : Nat) (h0 : 0 ≤ index)
    (h1 : index < (RecordCount : Int)) (hlen : len = RecordSize * RecordCount) :
    index.toNat * RecordSize + RecordSize ≤ len := by
  have h2 : index.toNat < RecordCount := by omega
  have hRS : RecordSize = 100 := rfl
  have hRC : RecordCount = 1000000 := rfl
  rw [hRC] at h2
  rw [hlen, hRS, hRC]
  omega

/-- Success shape of the positional read: in-range index, big-enough
buffer and a record lying inside the file yield exactly the record's
bytes. -/
theorem readerAt_readRecord_ok (file : List Nat) (index : Int)
    (buf : List Nat) (h0 : 0 ≤ index) (h1 : index < (RecordCount : Int))
    (hbuf : RecordSize ≤ buf.length)
    (hfit : index.toNat * RecordSize + RecordSize ≤ file.length) :
    ReaderAtReader.ReadRecord file index buf =
      Except.ok ((file.drop (index.toNat * RecordSize)).take RecordSize) := by
  have hlen := slice_length file _ hfit
  simp only [ReaderAtReader.ReadRecord, readRecordWith, fileReadAt]
  rw [if_neg (inRange_not_out index h0 h1),
    if_neg (show ¬buf.length < RecordSize by omega)]
  rw [hlen]
  simp

/-- Success shape of the mapped read: in-range index and a record lying
inside the mapping yield exactly the record's bytes, whatever `buf` is. -/
theorem mmap_readRecord_ok (data : List Nat) (index : Int)
    (buf : List Nat) (h0 : 0 ≤ index) (h1 : index < (RecordCount : Int))
    (hfit : index.toNat * RecordSize + RecordSize ≤ data.length) :
    MmapReader.ReadRecord data index buf =
      Except.ok ((data.drop (index.toNat * RecordSize)).take RecordSize) := by
  unfold MmapReader.ReadRecord
  rw [if_neg (inRange_not_out index h0 h1), if_neg (by omega)]

/-- Success shape of the positional write. -/
theorem writerAt_writeRecord_ok (file : List Nat) (index : Int)
    (data : List Nat) (h0 : 0 ≤ index) (h1 : index < (RecordCount : Int))
    (hdata : data.length = RecordSize) :
    WriterAtWriter.WriteRecord file index data =
      (writeBytes file (index.toNat * RecordSize) data, none) := by
  unfold WriterAtWriter.WriteRecord
  rw [if_neg (inRange_not_out index h0 h1), if_neg (by omega), if_neg (by omega)]

/-- Success shape of the mapped write. -/
theorem mmap_writeRecord_ok (mapping : List Nat) (index : Int)
    (data : List Nat) (h0 : 0 ≤ index) (h1 : index < (RecordCount : Int))
    (hdata : data.length = RecordSize)
    (hfit : index.toNat * RecordSize + RecordSize ≤ mapping.length) :
    MmapWriter.WriteRecord mapping index data =
      (mapping.take (index.toNat * RecordSize) ++ data ++
        mapping.drop (index.toNat * RecordSize + RecordSize), none) := by
  unfold MmapWriter.WriteRecord
  rw [if_neg (inRange_not_out index h0 h1), if_neg (by omega), if_neg (by omega)]

/-- C1: for every index in `[0, RecordCount)` and the same correctly
sized underlying file content, the positional `ReadRecord` with a buffer
of length at least `RecordSize` and the mapped `ReadRecord` with a nil
buffer both succeed and return byte-identical content of length
`RecordSize`. -/
theorem claim_C1_read_equivalence (file : List Nat) (index : Int)
    (buf : List Nat) (h0 : 0 ≤ index) (h1 : index < (RecordCount : Int))
    (hbuf : RecordSize ≤ buf.length)
    (hfile : file.length = RecordSize * RecordCount) :
    ∃ bytes : List Nat, bytes.length = RecordSize ∧
      ReaderAtReader.ReadRecord file index buf = Except.ok bytes ∧
      MmapReader.ReadRecord file index [] = Except.ok bytes := by
  have hfit := record_fits index file.length h0 h1 hfile
  exact ⟨(file.drop (index.toNat * RecordSize)).take RecordSize,
    slice_length file _ hfit,
    readerAt_readRecord_ok file index buf h0 h1 hbuf hfit,
    mmap_readRecord_ok file index [] h0 h1 hfit⟩

/-- C1 witness: concrete instance at index 0 on an all-zero full-size
file. -/
theorem claim_C1_read_equivalence_witness :
    ∃ bytes : List Nat, bytes.length = RecordSize ∧
      ReaderAtReader.ReadRecord (List.replicate (RecordSize * RecordCount) 0) 0
        (List.replicate RecordSize 0) = Except.ok bytes ∧
      MmapReader.ReadRecord (List.replicate (RecordSize * RecordCount) 0) 0 [] =
        Except.ok bytes :=
  claim_C1_read_equivalence (List.replicate (RecordSize * RecordCount) 0) 0
    (List.replicate RecordSize 0) (by decide) (by decide) (by simp) (by simp)

example : ReaderAtReader.ReadRecord [] (-1) [] = .error (.indexOutOfRange (-1)) := rfl
example : MmapReader.ReadRecord [] 1000000 [] = .error (.indexOutOfRange 1000000) := rfl
set_option maxRecDepth 4000 in
example :
    ReaderAtReader.ReadRecord (List.replicate 100 7) 0 (List.replicate 100 0) =
      .ok (List.replicate 100 7) := rfl
set_option maxRecDepth 4000 in
example :
    ReaderAtReader.ReadRecord (List.replicate 150 7) 1 (List.replicate 100 0) =
      .error (.shortRead 100 50) := rfl
set_option maxRecDepth 4000 in
example :
    MmapReader.ReadRecord (List.replicate 100 7) 0 [] = .ok (List.replicate 100 7) := rfl
set_option maxRecDepth 4000 in
example :
    MmapReader.ReadRecord (List.replicate 150 7) 1 [] = .error (.boundsExceeded 1) := rfl
set_option maxRecDepth 4000 in
example :
    MmapWriter.WriteRecord (List.replicate 200 0) 1 (List.replicate 99 5) =
      (List.replicate 200 0, some (.sizeMismatch 100 99)) := rfl
set_option maxRecDepth 4000 in
example :
    (MmapWriter.WriteRecord (List.replicate 200 0) 1 (List.replicate 100 5)).1 =
      List.replicate 100 0 ++ List.replicate 100 5 := rfl
example : MmapReader.Close true true (some .readFailed) (some .advisoryFailed) =
    ([CloseAction.munmap, CloseAction.closeFile], some .readFailed) := by decide
example : warmLoop 8200 0 = [0, 4096, 8192] := by
  rw [warmLoop, if_pos (by omega), warmLoop, if_pos (by omega), warmLoop,
    if_pos (by omega), warmLoop, if_neg (by omega)]

/-- C2: an index outside `[0, RecordCount)` makes every one of the four
record operations fail with the index-out-of-range error whatever the
file, mapping, buffer or payload are (so before any I/O, and never
clamped), while indices `0`, `1` and `RecordCount - 1` succeed on
correctly sized contents with an adequate buffer and payload. -/
theorem claim_C2_index_bounds (file mapping buf data : List Nat)
    (hfile : file.length = RecordSize * RecordCount)
    (hmap : mapping.length = RecordSize * RecordCount)
    (hbuf : RecordSize ≤ buf.length) (hdata : data.length = RecordSize) :
    (∀ index : Int, index < 0 ∨ index ≥ (RecordCount : Int) →
      ReaderAtReader.ReadRecord file index buf =
        .error (.indexOutOfRange index) ∧
      MmapReader.ReadRecord mapping index buf =
        .error (.indexOutOfRange index) ∧
      WriterAtWriter.WriteRecord file index data =
        (file, some (.indexOutOfRange index)) ∧
      MmapWriter.WriteRecord mapping index data =
        (mapping, some (.indexOutOfRange index))) ∧
    (∀ index : Int,
      index = 0 ∨ index = 1 ∨ index = (RecordCount : Int) - 1 →
      (∃ b, ReaderAtReader.ReadRecord file index buf = Except.ok b) ∧
      (∃ b, MmapReader.ReadRecord mapping index buf = Except.ok b) ∧
      (WriterAtWriter.WriteRecord file index data).2 = none ∧
      (MmapWriter.WriteRecord mapping index data).2 = none) := by
  constructor
  · intro index hout
    refine ⟨?_, ?_, ?_, ?_⟩
    · simp only [ReaderAtReader.ReadRecord, readRecordWith]
      rw [if_pos hout]
    · unfold MmapReader.ReadRecord
      rw [if_pos hout]
    · unfold WriterAtWriter.WriteRecord
      rw [if_pos hout]
    · unfold MmapWriter.WriteRecord
      rw [if_pos hout]
  · intro index hin
    have hRC : (RecordCount : Int) = 1000000 := rfl
    have h0 : 0 ≤ index := by rcases hin with h | h | h <;> omega
    have h1 : index < (RecordCount : Int) := by
      rcases hin with h | h | h <;> omega
    have hfitF := record_fits index file.length h0 h1 hfile
    have hfitM := record_fits index mapping.length h0 h1 hmap
    refine ⟨⟨_, readerAt_readRecord_ok file index buf h0 h1 hbuf hfitF⟩,
      ⟨_, mmap_readRecord_ok mapping index buf h0 h1 hfitM⟩, ?_, ?_⟩
    · rw [writerAt_writeRecord_ok file index data h0 h1 hdata]
    · rw [mmap_writeRecord_ok mapping index data h0 h1 hdata hfitM]

/-- C2 witness: concrete out-of-range failures at `-1` and `RecordCount`
and a concrete success at index `0`, on all-zero full-size contents. -/
theorem claim_C2_index_bounds_witness :
    ReaderAtReader.ReadRecord (List.replicate (RecordSize * RecordCount) 0)
      (-1) (List.replicate RecordSize 0) = .error (.indexOutOfRange (-1)) ∧
    MmapWriter.WriteRecord (List.replicate (RecordSize * RecordCount) 0)
      (RecordCount : Int) (List.replicate RecordSize 0) =
      (List.replicate (RecordSize * RecordCount) 0,
        some (.indexOutOfRange (RecordCount : Int))) ∧
    (MmapWriter.WriteRecord (List.replicate (RecordSize * RecordCount) 0) 0
      (List.replicate RecordSize 0)).2 = none := by
  have h := claim_C2_index_bounds (List.replicate (RecordSize * RecordCount) 0)
    (List.replicate (RecordSize * RecordCount) 0) (List.replicate RecordSize 0)
    (List.replicate RecordSize 0) (by simp) (by simp) (by simp) (by simp)
  exact ⟨(h.1 (-1) (Or.inl (by decide))).1,
    (h.1 (RecordCount : Int) (Or.inr (le_refl _))).2.2.2,
    (h.2 0 (Or.inl rfl)).2.2.2⟩

/-- C3: for an in-range index the positional read fails with the
buffer-too-small error exactly when the supplied buffer holds fewer than
`RecordSize` bytes; with a buffer of at least `RecordSize` bytes (a
minimum, not an exact size) the call proceeds to the positional read and
succeeds whenever the record lies inside the file. -/
theorem claim_C3_buffer_too_small (file : List Nat) (index : Int)
    (buf : List Nat) (h0 : 0 ≤ index) (h1 : index < (RecordCount : Int)) :
    ((∃ need got, ReaderAtReader.ReadRecord file index buf =
        .error (.bufferTooSmall need got)) ↔ buf.length < RecordSize) ∧
    (RecordSize ≤ buf.length →
      index.toNat * RecordSize + RecordSize ≤ file.length →
      ReaderAtReader.ReadRecord file index buf =
        Except.ok ((file.drop (index.toNat * RecordSize)).take RecordSize)) := by
  constructor
  · constructor
    · rintro ⟨need, got, heq⟩
      by_contra hge
      simp only [ReaderAtReader.ReadRecord, readRecordWith] at heq
      rw [if_neg (inRange_not_out index h0 h1), if_neg hge] at heq
      split at heq <;> simp_all
      split at heq <;> simp_all
    · intro hlt
      refine ⟨RecordSize, buf.length, ?_⟩
      simp only [ReaderAtReader.ReadRecord, readRecordWith]
      rw [if_neg (inRange_not_out index h0 h1), if_pos hlt]
  · intro hbuf hfit
    exact readerAt_readRecord_ok file index buf h0 h1 hbuf hfit

/-- C3 witness: a 99-byte buffer is rejected and a 100-byte buffer is
accepted at index 0 of a one-record file. -/
theorem claim_C3_buffer_too_small_witness :
    (∃ need got, ReaderAtReader.ReadRecord (List.replicate RecordSize 3) 0
      (List.replicate 99 0) = .error (.bufferTooSmall need got)) ∧
    ReaderAtReader.ReadRecord (List.replicate RecordSize 3) 0
      (List.replicate RecordSize 0) =
      Except.ok (((List.replicate RecordSize 3).drop
        ((0 : Int).toNat * RecordSize)).take RecordSize) :=
  ⟨(claim_C3_buffer_too_small (List.replicate RecordSize 3) 0
      (List.replicate 99 0) (by decide) (by decide)).1.mpr (by decide),
    (claim_C3_buffer_too_small (List.replicate RecordSize 3) 0
      (List.replicate RecordSize 0) (by decide) (by decide)).2
      (by decide) (by decide)⟩

/-- C4: for an in-range index both writers reject any payload whose
length differs from `RecordSize` with the size-mismatch error and leave
the content untouched, and a write that reports success necessarily got a
payload of exactly `RecordSize` bytes. -/
theorem claim_C4_size_mismatch (file mapping : List Nat) (index : Int)
    (data : List Nat) (h0 : 0 ≤ index) (h1 : index < (RecordCount : Int)) :
    (data.length ≠ RecordSize →
      WriterAtWriter.WriteRecord file index data =
        (file, some (.sizeMismatch RecordSize data.length)) ∧
      MmapWriter.WriteRecord mapping index data =
        (mapping, some (.sizeMismatch RecordSize data.length))) ∧
    ((WriterAtWriter.WriteRecord file index data).2 = none →
      data.length = RecordSize) ∧
    ((MmapWriter.WriteRecord mapping index data).2 = none →
      data.length = RecordSize) := by
  have hmis : data.length ≠ RecordSize →
      WriterAtWriter.WriteRecord file index data =
        (file, some (.sizeMismatch RecordSize data.length)) ∧
      MmapWriter.WriteRecord mapping index data =
        (mapping, some (.sizeMismatch RecordSize data.length)) := by
    intro hne
    constructor
    · unfold WriterAtWriter.WriteRecord
      rw [if_neg (inRange_not_out index h0 h1), if_pos hne]
    · unfold MmapWriter.WriteRecord
      rw [if_neg (inRange_not_out index h0 h1), if_pos hne]
  refine ⟨hmis, ?_, ?_⟩
  · intro hok
    by_contra hne
    rw [(hmis hne).1] at hok
    simp at hok
  · intro hok
    by_contra hne
    rw [(hmis hne).2] at hok
    simp at hok

/-- C4 witness: a 99-byte and a 101-byte payload are both rejected by
both writers at index 0. -/
theorem claim_C4_size_mismatch_witness :
    WriterAtWriter.WriteRecord (List.replicate RecordSize 0) 0
      (List.replicate 99 7) =
      (List.replicate RecordSize 0, some (.sizeMismatch RecordSize 99)) ∧
    MmapWriter.WriteRecord (List.replicate RecordSize 0) 0
      (List.replicate 101 7) =
      (List.replicate RecordSize 0, some (.sizeMismatch RecordSize 101)) :=
  ⟨((claim_C4_size_mismatch (List.replicate RecordSize 0)
      (List.replicate RecordSize 0) 0 (List.replicate 99 7)
      (by decide) (by decide)).1 (by decide)).1,
    ((claim_C4_size_mismatch (List.replicate RecordSize 0)
      (List.replicate RecordSize 0) 0 (List.replicate 101 7)
      (by decide) (by decide)).1 (by decide)).2⟩

/-- C5: for an in-range index and a sufficient buffer the positional read
succeeds whenever the underlying `ReadAt` delivers a full `RecordSize`
count with at most a clean end-of-stream signal, reports a short-read
error whenever the delivered count differs from `RecordSize` (end-of-
stream signal or not), and propagates any other I/O failure. -/
theorem claim_C5_readat_outcome (index : Int) (buf : List Nat)
    (readAt : Nat → ReadAtOutcome)
    (h0 : 0 ≤ index) (h1 : index < (RecordCount : Int))
    (hbuf : RecordSize ≤ buf.length) :
    (((readAt (index.toNat * RecordSize)).err = some .eof ∨
        (readAt (index.toNat * RecordSize)).err = none) →
      (readAt (index.toNat * RecordSize)).bytes.length = RecordSize →
      readRecordWith index buf readAt =
        Except.ok (readAt (index.toNat * RecordSize)).bytes) ∧
    (((readAt (index.toNat * RecordSize)).err = some .eof ∨
        (readAt (index.toNat * RecordSize)).err = none) →
      (readAt (index.toNat * RecordSize)).bytes.length ≠ RecordSize →
      readRecordWith index buf readAt =
        .error (.shortRead RecordSize
          (readAt (index.toNat * RecordSize)).bytes.length)) ∧
    ((readAt (index.toNat * RecordSize)).err = some .otherFailure →
      readRecordWith index buf readAt = .error .readFailed) := by
  have hbase : ∀ P : Except Err (List Nat) → Prop,
      (P (if (readAt (index.toNat * RecordSize)).err = some .otherFailure then
          .error .readFailed
        else if (readAt (index.toNat * RecordSize)).bytes.length ≠ RecordSize then
          .error (.shortRead RecordSize
            (readAt (index.toNat * RecordSize)).bytes.length)
        else .ok (readAt (index.toNat * RecordSize)).bytes)) →
      P (readRecordWith index buf readAt) := by
    intro P hP
    unfold readRecordWith
    rw [if_neg (inRange_not_out index h0 h1), if_neg (by omega)]
    exact hP
  refine ⟨?_, ?_, ?_⟩
  · intro herr hfull
    apply hbase (fun r => r = Except.ok (readAt (index.toNat * RecordSize)).bytes)
    rw [if_neg (by rcases herr with h | h <;> simp [h]),
      if_neg (by omega)]
  · intro herr hshort
    apply hbase (fun r => r = .error (.shortRead RecordSize
      (readAt (index.toNat * RecordSize)).bytes.length))
    rw [if_neg (by rcases herr with h | h <;> simp [h]), if_pos hshort]
  · intro herr
    apply hbase (fun r => r = .error .readFailed)
    rw [if_pos herr]

/-- C5 witness: a full read with a clean end-of-stream succeeds, a
half-size read fails as a short read, and another failure propagates. -/
theorem claim_C5_readat_outcome_witness :
    readRecordWith 0 (List.replicate RecordSize 0)
      (fun _ => ⟨List.replicate 100 5, some .eof⟩) =
      Except.ok (List.replicate 100 5) ∧
    readRecordWith 0 (List.replicate RecordSize 0)
      (fun _ => ⟨List.replicate 50 5, some .eof⟩) =
      .error (.shortRead RecordSize 50) ∧
    readRecordWith 0 (List.replicate RecordSize 0)
      (fun _ => ⟨[], some .otherFailure⟩) = .error .readFailed :=
  ⟨(claim_C5_readat_outcome 0 (List.replicate RecordSize 0)
      (fun _ => ⟨List.replicate 100 5, some .eof⟩) (by decide) (by decide)
      (by decide)).1 (Or.inl rfl) (by decide),
    (claim_C5_readat_outcome 0 (List.replicate RecordSize 0)
      (fun _ => ⟨List.replicate 50 5, some .eof⟩) (by decide) (by decide)
      (by decide)).2.1 (Or.inl rfl) (by decide),
    (claim_C5_readat_outcome 0 (List.replicate RecordSize 0)
      (fun _ => ⟨[], some .otherFailure⟩) (by decide) (by decide)
      (by decide)).2.2 rfl⟩

/-- C6: for an in-range index whose record lies inside the mapping the
mapped read returns exactly the mapping's sub-slice
`[index*RecordSize, index*RecordSize + RecordSize)` whatever buffer is
passed, its result never depends on the buffer argument, and a record
past the mapping's end yields the bounds error. -/
theorem claim_C6_mapped_read_view (data : List Nat) (index : Int)
    (h0 : 0 ≤ index) (h1 : index < (RecordCount : Int)) :
    (index.toNat * RecordSize + RecordSize ≤ data.length →
      ∀ buf : List Nat, MmapReader.ReadRecord data index buf =
        Except.ok ((data.drop (index.toNat * RecordSize)).take RecordSize)) ∧
    (∀ buf1 buf2 : List Nat, MmapReader.ReadRecord data index buf1 =
      MmapReader.ReadRecord data index buf2) ∧
    (data.length < index.toNat * RecordSize + RecordSize →
      ∀ buf : List Nat, MmapReader.ReadRecord data index buf =
        .error (.boundsExceeded index)) := by
  refine ⟨?_, ?_, ?_⟩
  · intro hfit buf
    exact mmap_readRecord_ok data index buf h0 h1 hfit
  · intro buf1 buf2
    rfl
  · intro hover buf
    unfold MmapReader.ReadRecord
    rw [if_neg (inRange_not_out index h0 h1), if_pos (by omega)]

set_option maxRecDepth 8000 in
/-- C6 witness: index 1 of a two-record mapping yields the second
record's bytes for both a nil and a non-nil buffer, and index 1 of a
1.5-record mapping yields the bounds error. -/
theorem claim_C6_mapped_read_view_witness :
    MmapReader.ReadRecord (List.replicate 200 4) 1 [] =
      Except.ok (((List.replicate 200 4).drop
        ((1 : Int).toNat * RecordSize)).take RecordSize) ∧
    MmapReader.ReadRecord (List.replicate 200 4) 1 [] =
      MmapReader.ReadRecord (List.replicate 200 4) 1 (List.replicate 7 9) ∧
    MmapReader.ReadRecord (List.replicate 150 4) 1 [] =
      .error (.boundsExceeded 1) :=
  ⟨(claim_C6_mapped_read_view (List.replicate 200 4) 1 (by decide)
      (by decide)).1 (by decide) [],
    (claim_C6_mapped_read_view (List.replicate 200 4) 1 (by decide)
      (by decide)).2.1 [] (List.replicate 7 9),
    (claim_C6_mapped_read_view (List.replicate 150 4) 1 (by decide)
      (by decide)).2.2 (by decide) []⟩

/-- C7: for an in-range index and a payload of exactly `RecordSize` bytes
whose record lies inside the mapping, the mapped write succeeds and the
mapping afterwards holds exactly the payload at
`[index*RecordSize, index*RecordSize + RecordSize)`. -/
theorem claim_C7_mapped_write_lands (mapping : List Nat) (index : Int)
    (data : List Nat) (h0 : 0 ≤ index) (h1 : index < (RecordCount : Int))
    (hdata : data.length = RecordSize)
    (hfit : index.toNat * RecordSize + RecordSize ≤ mapping.length) :
    (MmapWriter.WriteRecord mapping index data).2 = none ∧
    ((MmapWriter.WriteRecord mapping index data).1.drop
      (index.toNat * RecordSize)).take RecordSize = data := by
  rw [mmap_writeRecord_ok mapping index data h0 h1 hdata hfit]
  refine ⟨rfl, ?_⟩
  rw [List.append_assoc,
    List.drop_left' (by rw [List.length_take]; omega),
    List.take_left' hdata]

set_option maxRecDepth 8000 in
/-- C7 witness: writing 100 sevens at index 1 of a three-record mapping
succeeds and reads back as the payload. -/
theorem claim_C7_mapped_write_lands_witness :
    (MmapWriter.WriteRecord (List.replicate 300 0) 1
      (List.replicate 100 7)).2 = none ∧
    ((MmapWriter.WriteRecord (List.replicate 300 0) 1
      (List.replicate 100 7)).1.drop
      ((1 : Int).toNat * RecordSize)).take RecordSize =
      List.replicate 100 7 :=
  claim_C7_mapped_write_lands (List.replicate 300 0) 1
    (List.replicate 100 7) (by decide) (by decide) (by decide) (by decide)

/-- C8: teardown of a mapped accessor (reader or writer) performs the
munmap first and the file-handle close second, attempts the close even
when the munmap fails, and surfaces the munmap error whenever there is
one (also when both steps fail), otherwise the close error. -/
theorem claim_C8_close_order (unmapErr closeErr : Option Err) :
    (MmapReader.Close true true unmapErr closeErr).1 =
      [CloseAction.munmap, CloseAction.closeFile] ∧
    (MmapWriter.Close true true unmapErr closeErr).1 =
      [CloseAction.munmap, CloseAction.closeFile] ∧
    (∀ e, unmapErr = some e →
      (MmapReader.Close true true unmapErr closeErr).2 = some e ∧
      (MmapWriter.Close true true unmapErr closeErr).2 = some e) ∧
    (unmapErr = none →
      (MmapReader.Close true true unmapErr closeErr).2 = closeErr ∧
      (MmapWriter.Close true true unmapErr closeErr).2 = closeErr) := by
  refine ⟨rfl, rfl, ?_, ?_⟩
  · rintro e rfl
    exact ⟨rfl, rfl⟩
  · rintro rfl
    exact ⟨rfl, rfl⟩

/-- C8 witness: when both steps fail, the actions happen in order and the
munmap error is the one surfaced, for both mapped accessors. -/
theorem claim_C8_close_order_witness :
    (MmapReader.Close true true (some Err.readFailed)
      (some Err.advisoryFailed)).1 =
      [CloseAction.munmap, CloseAction.closeFile] ∧
    (MmapReader.Close true true (some Err.readFailed)
      (some Err.advisoryFailed)).2 = some Err.readFailed ∧
    (MmapWriter.Close true true (some Err.readFailed)
      (some Err.advisoryFailed)).2 = some Err.readFailed :=
  ⟨(claim_C8_close_order (some Err.readFailed) (some Err.advisoryFailed)).1,
    ((claim_C8_close_order (some Err.readFailed)
      (some Err.advisoryFailed)).2.2.1 Err.readFailed rfl).1,
    ((claim_C8_close_order (some Err.readFailed)
      (some Err.advisoryFailed)).2.2.1 Err.readFailed rfl).2⟩

/-- The offsets the warm loop touches starting at `i` are exactly
`i + 4096 * k` for some `k`, below `len`. -/
theorem warmLoop_mem (len i x : Nat) :
    x ∈ warmLoop len i ↔ (∃ k, x = i + 4096 * k) ∧ x < len := by
  induction i using warmLoop.induct with
  | len => exact len
  | case1 i hlt ih =>
    rw [warmLoop, if_pos hlt]
    simp only [List.mem_cons, ih]
    constructor
    · rintro (rfl | ⟨⟨k, rfl⟩, hx⟩)
      · exact ⟨⟨0, by omega⟩, hlt⟩
      · exact ⟨⟨k + 1, by ring⟩, hx⟩
    · rintro ⟨⟨k, rfl⟩, hx⟩
      cases k with
      | zero => exact Or.inl (by omega)
      | succ k => exact Or.inr ⟨⟨k, by ring⟩, hx⟩
  | case2 i hge =>
    rw [warmLoop, if_neg hge]
    simp only [List.not_mem_nil, false_iff]
    rintro ⟨⟨k, rfl⟩, hx⟩
    omega

/-- C9: forcing eviction and then warming on a mapped writer leaves every
byte of the mapping's content unchanged, whatever the advisory call
reports; the warm pass reads exactly one byte at every offset that is a
multiple of the 4096-byte page size below the mapping length. -/
theorem claim_C9_residency_frame (d : List Nat) (madviseErr : Option Err) :
    (MmapWriter.WarmPages
      (MmapWriter.EvictPages (some d) madviseErr).1).1 = some d ∧
    (∀ x, x ∈ (MmapWriter.WarmPages (some d)).2 ↔
      (∃ k, x = 4096 * k) ∧ x < d.length) := by
  constructor
  · rfl
  · intro x
    have h := warmLoop_mem d.length 0 x
    simpa [MmapWriter.WarmPages] using h

/-- C10: a mapped write never changes any mapping byte outside the target
record's range, and a call that reports an error (out-of-range index,
size mismatch or bounds excess) changes no byte at all. -/
theorem claim_C10_write_frame (mapping : List Nat) (index : Int)
    (data : List Nat) :
    (∀ j : Nat, j < index.toNat * RecordSize ∨
        index.toNat * RecordSize + RecordSize ≤ j →
      (MmapWriter.WriteRecord mapping index data).1[j]? = mapping[j]?) ∧
    ((MmapWriter.WriteRecord mapping index data).2 ≠ none →
      (MmapWriter.WriteRecord mapping index data).1 = mapping) := by
  constructor
  · intro j hj
    unfold MmapWriter.WriteRecord
    split
    · rfl
    split
    · rfl
    split
    · rfl
    rename_i hout hlen hfit
    have hlen' : data.length = RecordSize := by omega
    have hto : (mapping.take (index.toNat * RecordSize)).length =
        index.toNat * RecordSize := by
      rw [List.length_take]
      omega
    rcases hj with hj | hj
    · rw [List.append_assoc,
        List.getElem?_append_left (by rw [hto]; exact hj),
        List.getElem?_take_of_lt hj]
    · rw [List.getElem?_append_right
        (by rw [List.length_append, hto, hlen']; exact hj),
        List.getElem?_drop]
      congr 1
      rw [List.length_append, hto, hlen']
      omega
  · intro herr
    unfold MmapWriter.WriteRecord at herr ⊢
    by_cases hA : index < 0 ∨ index ≥ (RecordCount : Int)
    · rw [if_pos hA]
    rw [if_neg hA] at herr ⊢
    by_cases hB : data.length ≠ RecordSize
    · rw [if_pos hB]
    rw [if_neg hB] at herr ⊢
    by_cases hC : index.toNat * RecordSize + RecordSize > mapping.length
    · rw [if_pos hC]
    rw [if_neg hC] at herr
    simp at herr

set_option maxRecDepth 8000 in
/-- C10 witness: writing at index 1 of a three-record mapping leaves byte
250 untouched, and an undersized payload leaves the mapping identical. -/
theorem claim_C10_write_frame_witness :
    (MmapWriter.WriteRecord (List.replicate 300 2) 1
      (List.replicate 100 7)).1[250]? = (List.replicate 300 2)[250]? ∧
    (MmapWriter.WriteRecord (List.replicate 300 2) 1
      (List.replicate 99 7)).1 = List.replicate 300 2 :=
  ⟨(claim_C10_write_frame (List.replicate 300 2) 1
      (List.replicate 100 7)).1 250 (by decide),
    (claim_C10_write_frame (List.replicate 300 2) 1
      (List.replicate 99 7)).2 (by decide)⟩
